import Mathlib

/-!
Verification of the `kast` renderer core (Rust, `src/core`) against its
natural-language specification.

The development shallowly embeds the parts of the code the claims are about:

* `find_memory_type` from `src/core/src/graphics/utils.rs`;
* extent resolution and surface-format selection from
  `src/core/src/graphics/swapchain.rs` (`Swapchain::new`,
  `Swapchain::choose_surface_format`);
* the geometry-arena bump allocator from `Renderer::upload_mesh`
  (`src/core/src/graphics/renderer.rs`);
* the per-frame draw loop `Renderer::draw_frame` and `Renderer::resize`,
  with frame slots (`FrameData`), their fences and deferred-deletion
  queues, modelled as explicit state.

Vulkan handles (framebuffers, image views, swapchains) are modelled as
natural-number identifiers; Vulkan result codes keep their numeric values
from the headers wrapped by `vk_bindings`.  GPU-side behaviour is modelled
by fence states: a fence is `unsignaled`, `pending` (attached to submitted
work, signalled on its completion) or `signaled`.  `vkWaitForFences` with
an unbounded timeout blocks forever exactly when a waited fence is
unsignaled with no pending work attached, which the model reports as a
`deadlocked` outcome; a `panic!` in the Rust source is reported as the
`fatal` outcome.  32-bit `f32` scalars that are only ever copied, plus the
single aspect-ratio division, are modelled over `ℚ`.
-/

namespace Kast

/-! ### Vulkan constants (values from the Vulkan headers used by `vk_bindings`) -/

def VK_SUCCESS : Int := 0
def VK_SUBOPTIMAL_KHR : Int := 1000001003
def VK_ERROR_OUT_OF_DATE_KHR : Int := -1000001004
def VK_FORMAT_B8G8R8A8_UNORM : Nat := 44
def VK_COLOR_SPACE_SRGB_NONLINEAR_KHR : Nat := 0
def VK_FORMAT_FEATURE_COLOR_ATTACHMENT_BIT : Nat := 128
def U32_MAX : Nat := 4294967295

/-! ### `utils.rs`: `find_memory_type` -/

/-- The scan loop of `find_memory_type` (utils.rs:22-28): entry `flags` of the
list is memory type number `i`; return the first `i` whose bit is set in
`type_filter` and whose property flags are a superset of `properties`. -/
def findMemGo (type_filter properties : Nat) (i : Nat) : List Nat → Option Nat
  | [] => none
  | flags :: rest =>
    if type_filter &&& (1 <<< i) ≠ 0 ∧ flags &&& properties = properties then some i
    else findMemGo type_filter properties (i + 1) rest

/-- `find_memory_type` (utils.rs:12-31).  `memTypes` lists the `propertyFlags`
of the platform's first `memoryTypeCount` memory types.  The Rust function
panics when no type matches; the model returns `none` there. -/
def find_memory_type (type_filter properties : Nat) (memTypes : List Nat) : Option Nat :=
  findMemGo type_filter properties 0 memTypes

/-! ### `swapchain.rs`: extent resolution and surface-format selection -/

structure VkExtent2D where
  width : Nat
  height : Nat
deriving DecidableEq

structure VkSurfaceCapabilities where
  currentExtent : VkExtent2D
  minImageExtent : VkExtent2D
  maxImageExtent : VkExtent2D
deriving DecidableEq

/-- Extent resolution from `Swapchain::new` (swapchain.rs:103-119): use the
surface's `currentExtent` unless its width is `u32::MAX`, in which case clamp
the window's physical size into the `[min, max]` image-extent bounds
(`min_width.max(max_width.min(width))`, same for height). -/
def chooseExtent (caps : VkSurfaceCapabilities) (windowWidth windowHeight : Nat) : VkExtent2D :=
  if caps.currentExtent.width ≠ U32_MAX then
    caps.currentExtent
  else
    { width := max caps.minImageExtent.width (min caps.maxImageExtent.width windowWidth),
      height := max caps.minImageExtent.height (min caps.maxImageExtent.height windowHeight) }

structure VkSurfaceFormatKHR where
  format : Nat
  colorSpace : Nat
deriving DecidableEq

/-- The predicate of the `find` in `Swapchain::choose_surface_format`
(swapchain.rs:314-329): optimal tiling features of the entry's format include
the color-attachment bit, the format is `B8G8R8A8_UNORM` and the color space
is sRGB nonlinear.  `tilingFeatures` gives each format's
`optimalTilingFeatures` as reported by
`vkGetPhysicalDeviceFormatProperties`. -/
def formatPred (tilingFeatures : Nat → Nat) (f : VkSurfaceFormatKHR) : Bool :=
  decide ((tilingFeatures f.format &&& VK_FORMAT_FEATURE_COLOR_ATTACHMENT_BIT) ≠ 0) &&
    (f.format == VK_FORMAT_B8G8R8A8_UNORM) &&
    (f.colorSpace == VK_COLOR_SPACE_SRGB_NONLINEAR_KHR)

/-- `Swapchain::choose_surface_format` (swapchain.rs:286-338): first list entry
matching `formatPred`, else `surface_formats[0]` (which panics on an empty
list; the model returns `none` there). -/
def choose_surface_format (tilingFeatures : Nat → Nat)
    (surface_formats : List VkSurfaceFormatKHR) : Option VkSurfaceFormatKHR :=
  match surface_formats.find? (formatPred tilingFeatures) with
  | some f => some f
  | none => surface_formats.head?

/-! ### `renderer.rs`: the geometry arena and `upload_mesh` -/

def GLOBAL_BUFFER_SIZE : Nat := 64 * 1024 * 1024

/-- `std::mem::size_of::<Vertex>()` for `Vertex { position: [f32; 3] }`
(mesh.rs:5-7). -/
def VERTEX_SIZE : Nat := 12

/-- `std::mem::size_of::<u32>()`. -/
def U32_SIZE : Nat := 4

/-- A vertex (`mesh.rs` `Vertex`); its three `f32` position components are
modelled over `ℚ` and are only ever copied. -/
structure Vertex where
  position : ℚ × ℚ × ℚ
deriving DecidableEq

/-- Modelled from the spec: the `Mesh` region descriptor returned by
`Renderer::upload_mesh` — `{index count, first index offset, vertex offset}`
into the global vertex/index arena (spec §3).  The plain constructor
`Mesh::new(index_count, first_index, vertex_offset)` called at
renderer.rs:416-420 is absent from `src/` (the `mesh.rs` present there is an
older buffer-owning variant of the type). -/
structure Mesh where
  index_count : Nat
  first_index : Nat
  vertex_offset : Nat
deriving DecidableEq

/-- The arena cursors of `Renderer` (renderer.rs:25, 27):
`vertex_buffer_offset` and `index_buffer_offset`, in bytes. -/
structure ArenaState where
  vertex_buffer_offset : Nat
  index_buffer_offset : Nat
deriving DecidableEq

/-- `Renderer::upload_mesh` (renderer.rs:321-426), restricted to the arena
state it reads and writes.  Byte sizes are computed from the argument slices;
a size that would overrun `GLOBAL_BUFFER_SIZE` panics (modelled `none`)
before any state is touched; otherwise the returned descriptor records the
pre-call cursors (divided by the element sizes, matching the source) and
both cursors advance by exactly the uploaded byte sizes. -/
def upload_mesh (s : ArenaState) (vertices : List Vertex) (indices : List Nat) :
    Option (Mesh × ArenaState) :=
  let vertex_buffer_size := vertices.length * VERTEX_SIZE
  let index_buffer_size := indices.length * U32_SIZE
  if s.vertex_buffer_offset + vertex_buffer_size > GLOBAL_BUFFER_SIZE then none
  else if s.index_buffer_offset + index_buffer_size > GLOBAL_BUFFER_SIZE then none
  else
    some
      ({ index_count := indices.length,
         first_index := s.index_buffer_offset / U32_SIZE,
         vertex_offset := s.vertex_buffer_offset / VERTEX_SIZE },
       { vertex_buffer_offset := s.vertex_buffer_offset + vertex_buffer_size,
         index_buffer_offset := s.index_buffer_offset + index_buffer_size })

/-- A sequence of `upload_mesh` calls, stopping at the first failure. -/
def uploadAll (s : ArenaState) :
    List (List Vertex × List Nat) → Option (List Mesh × ArenaState)
  | [] => some ([], s)
  | (vs, inds) :: rest =>
    match upload_mesh s vs inds with
    | none => none
    | some (m, s1) =>
      match uploadAll s1 rest with
      | none => none
      | some (ms, s2) => some (m :: ms, s2)

/-- Cumulative vertex bytes of a call sequence. -/
def vertexBytes (ms : List (List Vertex × List Nat)) : Nat :=
  (ms.map (fun m => m.1.length * VERTEX_SIZE)).sum

/-- Cumulative index bytes of a call sequence. -/
def indexBytes (ms : List (List Vertex × List Nat)) : Nat :=
  (ms.map (fun m => m.2.length * U32_SIZE)).sum

/-- The mesh descriptors a successful call sequence starting at cursors
`(v, i)` must return: each call sees the cursors left by its predecessors. -/
def expectedMeshes (v i : Nat) : List (List Vertex × List Nat) → List Mesh
  | [] => []
  | (vs, inds) :: rest =>
    { index_count := inds.length, first_index := i / U32_SIZE, vertex_offset := v / VERTEX_SIZE } ::
      expectedMeshes (v + vs.length * VERTEX_SIZE) (i + inds.length * U32_SIZE) rest

/-! ### `frame.rs` / `renderer.rs`: frame slots and the draw loop -/

/-- `MAX_OBJECT` (frame.rs:7). -/
def MAX_OBJECT : Nat := 10000

/-- `MAX_FRAMES_IN_FLIGHT` (renderer.rs:15). -/
def MAX_FRAMES_IN_FLIGHT : Nat := 3

/-- Host-visible state of a `VkFence`: `pending` means attached to submitted
GPU work that signals it on completion. -/
inductive FenceSt where
  | unsignaled
  | pending
  | signaled
deriving DecidableEq

/-- `CameraData` (uniforms.rs:3-6): `position: [f32; 4]` and
`aspect_ratio: f32`, scalars over `ℚ`. -/
structure CameraData where
  position : List ℚ
  aspect_ratio : ℚ
deriving DecidableEq

/-- `ObjectData` (uniforms.rs:10-13): `position: [f32; 4]` and `scale: f32`. -/
structure ObjectData where
  position : List ℚ
  scale : ℚ
deriving DecidableEq

/-- `Entity` (scene.rs:44-47): a mesh region descriptor plus per-instance
data. -/
structure Entity where
  mesh : Mesh
  data : ObjectData
deriving DecidableEq

/-- `Scene` (scene.rs:49-52). -/
structure Scene where
  camera_data : CameraData
  entities : List Entity
deriving DecidableEq

/-- `FrameData` (frame.rs:10-24), restricted to the state the draw loop reads
and writes: the two fences, the two deferred-deletion queues, and the
contents of the persistently mapped uniform (`global_buffer_mapped`) and
storage (`object_buffer_mapped`) memory.  Framebuffer and image-view handles
are natural-number identifiers. -/
structure FrameData where
  in_flight_fence : FenceSt
  present_fence : FenceSt
  delete_queue_framebuffers : List Nat
  delete_queue_image_views : List Nat
  global_buffer : CameraData
  object_buffer : List ObjectData
deriving DecidableEq

/-- A fresh `FrameData` (frame.rs:35-255): both fences are created with
`VK_FENCE_CREATE_SIGNALED_BIT`, both deletion queues empty; the freshly
mapped buffer memory is modelled as zeroed. -/
def FrameData.init : FrameData :=
  { in_flight_fence := .signaled,
    present_fence := .signaled,
    delete_queue_framebuffers := [],
    delete_queue_image_views := [],
    global_buffer := { position := [0, 0, 0, 0], aspect_ratio := 0 },
    object_buffer := List.replicate MAX_OBJECT { position := [0, 0, 0, 0], scale := 0 } }

/-- `Swapchain` (swapchain.rs:5-13), restricted to what the draw loop and
resize path use: the handle, the per-image views and framebuffers
(identifier lists), and the extent. -/
structure Swapchain where
  handle : Nat
  image_views : List Nat
  framebuffers : List Nat
  extent : VkExtent2D
deriving DecidableEq

/-- `Renderer` (renderer.rs:18-35), restricted to the draw-loop state:
the swapchain, the `MAX_FRAMES_IN_FLIGHT` frame slots and the round-robin
`current_frame_index`. -/
structure Renderer where
  swapchain : Swapchain
  frames : List FrameData
  current_frame_index : Nat
deriving DecidableEq

/-- The draw-loop state of a freshly constructed `Renderer`
(renderer.rs:295-313): `current_frame_index` is 0 and the
`MAX_FRAMES_IN_FLIGHT` fresh slots all have signaled fences and empty
deletion queues.  `sc` is the swapchain built during construction. -/
def Renderer.new (sc : Swapchain) : Renderer :=
  { swapchain := sc,
    frames := List.replicate MAX_FRAMES_IN_FLIGHT FrameData.init,
    current_frame_index := 0 }

/-- `Renderer::resize` (renderer.rs:856-879): append the current swapchain's
framebuffers and image views to the *current* slot's deletion queues
(`extend_from_slice`), then replace the swapchain with the newly created one
(`Swapchain::new` plus `create_framebuffers`, whose result the environment
supplies as `newSwapchain`; the old swapchain *handle* is destroyed inside
`Swapchain::new`, which never touches the queued views or framebuffers). -/
def resize (r : Renderer) (newSwapchain : Swapchain) : Renderer :=
  match r.frames[r.current_frame_index]? with
  | none => r
  | some frame =>
    { r with
      frames := r.frames.set r.current_frame_index
        { frame with
          delete_queue_framebuffers :=
            frame.delete_queue_framebuffers ++ r.swapchain.framebuffers,
          delete_queue_image_views :=
            frame.delete_queue_image_views ++ r.swapchain.image_views },
      swapchain := newSwapchain }

/-- The entity-copy loop of `draw_frame` (renderer.rs:573-579): write each
entity's `data` into `gpu_slice[i]`, breaking once `i >= MAX_OBJECT`. -/
def copyObjects (gpu_slice : List ObjectData) : List Entity → Nat → List ObjectData
  | [], _ => gpu_slice
  | e :: rest, i =>
    if i ≥ MAX_OBJECT then gpu_slice
    else copyObjects (gpu_slice.set i e.data) rest (i + 1)

/-- The command-recording loop of `draw_frame` (renderer.rs:747-768): for
every entity of the scene, push `object_index` as a push constant, increment
it, and record an indexed draw of the entity's mesh region. -/
def recordDraws : List Entity → Nat → List (Nat × Mesh)
  | [], _ => []
  | e :: rest, object_index => (object_index, e.mesh) :: recordDraws rest (object_index + 1)

/-- Per-call environment of `draw_frame`: the `VkResult` of
`vkAcquireNextImageKHR` and the acquired image index, the `VkResult` of
`vkQueuePresentKHR`, and the swapchain that `Swapchain::new` +
`create_framebuffers` would produce should this call trigger `resize`. -/
structure DrawEnv where
  acquireResult : Int
  imageIndex : Nat
  presentResult : Int
  resizeSwapchain : Swapchain

/-- How a `draw_frame` call ends: normally (`ok`), by the early return on an
out-of-date acquire (`acquireOutOfDate`), by a `panic!` (`fatal`), or by
blocking forever in `vkWaitForFences` (`deadlocked`). -/
inductive DrawOutcome where
  | ok
  | acquireOutOfDate
  | fatal
  | deadlocked
deriving DecidableEq

/-- Observable result of one `draw_frame` call: the renderer and scene after
the call, whether the fence wait completed, exactly which framebuffers and
image views were destroyed (only the deletion-queue drain at
renderer.rs:538-550 destroys any), whether the fences were reset, the
recorded per-entity draws, whether a submit and a present were issued,
whether `resize` ran, and the outcome. -/
structure DrawOut where
  renderer : Renderer
  scene : Scene
  waited : Bool
  freed_framebuffers : List Nat
  freed_image_views : List Nat
  fences_reset : Bool
  recorded_draws : List (Nat × Mesh)
  submitted : Bool
  present_called : Bool
  resize_triggered : Bool
  outcome : DrawOutcome

/-- The body of `draw_frame` after a successful fence wait
(renderer.rs:537-848), for active slot `idx` holding `frame0`; `r` already
has `current_frame_index = idx`.  In order: drain the slot's two deletion
queues and clear them; overwrite the scene camera's aspect ratio from the
current swapchain extent; copy the camera and the (truncated) entity data
into the slot's mapped buffers; acquire — out-of-date resizes and returns
early, other non-success non-suboptimal results panic; reset both fences,
record, submit (the in-flight fence is signalled on completion) and present
(the present fence is attached via `VkSwapchainPresentFenceInfoEXT`), so both
fences are `pending` from then on; an out-of-date or suboptimal present
resizes, any other non-success present panics. -/
def drawBody (env : DrawEnv) (r : Renderer) (idx : Nat) (frame0 : FrameData)
    (scene0 : Scene) : DrawOut :=
  let freedFbs := frame0.delete_queue_framebuffers
  let freedIvs := frame0.delete_queue_image_views
  let frame1 :=
    { frame0 with
      in_flight_fence := .signaled, present_fence := .signaled,
      delete_queue_framebuffers := [], delete_queue_image_views := [] }
  let scene :=
    { scene0 with
      camera_data :=
        { scene0.camera_data with
          aspect_ratio :=
            (r.swapchain.extent.width : ℚ) / (r.swapchain.extent.height : ℚ) } }
  let frame2 :=
    { frame1 with
      global_buffer := scene.camera_data,
      object_buffer := copyObjects frame1.object_buffer scene.entities 0 }
  let r2 := { r with frames := r.frames.set idx frame2 }
  if env.acquireResult = VK_ERROR_OUT_OF_DATE_KHR then
    { renderer := resize r2 env.resizeSwapchain, scene := scene, waited := true,
      freed_framebuffers := freedFbs, freed_image_views := freedIvs,
      fences_reset := false, recorded_draws := [], submitted := false,
      present_called := false, resize_triggered := true,
      outcome := .acquireOutOfDate }
  else if env.acquireResult ≠ VK_SUCCESS ∧ env.acquireResult ≠ VK_SUBOPTIMAL_KHR then
    { renderer := r2, scene := scene, waited := true,
      freed_framebuffers := freedFbs, freed_image_views := freedIvs,
      fences_reset := false, recorded_draws := [], submitted := false,
      present_called := false, resize_triggered := false, outcome := .fatal }
  else
    let frame3 := { frame2 with in_flight_fence := .unsignaled, present_fence := .unsignaled }
    let draws := recordDraws scene.entities 0
    let frame4 := { frame3 with in_flight_fence := .pending }
    let frame5 := { frame4 with present_fence := .pending }
    let r3 := { r2 with frames := r2.frames.set idx frame5 }
    if env.presentResult = VK_ERROR_OUT_OF_DATE_KHR ∨ env.presentResult = VK_SUBOPTIMAL_KHR then
      { renderer := resize r3 env.resizeSwapchain, scene := scene, waited := true,
        freed_framebuffers := freedFbs, freed_image_views := freedIvs,
        fences_reset := true, recorded_draws := draws, submitted := true,
        present_called := true, resize_triggered := true, outcome := .ok }
    else if env.presentResult ≠ VK_SUCCESS then
      { renderer := r3, scene := scene, waited := true,
        freed_framebuffers := freedFbs, freed_image_views := freedIvs,
        fences_reset := true, recorded_draws := draws, submitted := true,
        present_called := true, resize_triggered := false, outcome := .fatal }
    else
      { renderer := r3, scene := scene, waited := true,
        freed_framebuffers := freedFbs, freed_image_views := freedIvs,
        fences_reset := true, recorded_draws := draws, submitted := true,
        present_called := true, resize_triggered := false, outcome := .ok }

/-- `Renderer::draw_frame` (renderer.rs:521-849).  The round-robin index is
advanced at the top (`(i + 1) % frames.len()`); then `vkWaitForFences`
blocks with an unbounded timeout on the slot's in-flight and present fences,
which hangs forever (`deadlocked`) exactly when one of them is unsignaled
with no pending GPU work; then `drawBody` runs. -/
def draw_frame (env : DrawEnv) (r0 : Renderer) (scene0 : Scene) : DrawOut :=
  match r0.frames[(r0.current_frame_index + 1) % r0.frames.length]? with
  | none =>
    { renderer := { r0 with current_frame_index := (r0.current_frame_index + 1) % r0.frames.length },
      scene := scene0, waited := false,
      freed_framebuffers := [], freed_image_views := [], fences_reset := false,
      recorded_draws := [], submitted := false, present_called := false,
      resize_triggered := false, outcome := .fatal }
  | some frame =>
    if frame.in_flight_fence = .unsignaled ∨ frame.present_fence = .unsignaled then
      { renderer := { r0 with current_frame_index := (r0.current_frame_index + 1) % r0.frames.length },
        scene := scene0, waited := false,
        freed_framebuffers := [], freed_image_views := [], fences_reset := false,
        recorded_draws := [], submitted := false, present_called := false,
        resize_triggered := false, outcome := .deadlocked }
    else
      drawBody env
        { r0 with current_frame_index := (r0.current_frame_index + 1) % r0.frames.length }
        ((r0.current_frame_index + 1) % r0.frames.length) frame scene0

/-- Iterate `draw_frame` over a list of per-call environments, returning the
final renderer and scene. -/
def drawSeq (r : Renderer) (s : Scene) : List DrawEnv → Renderer × Scene
  | [] => (r, s)
  | env :: rest =>
    let out := draw_frame env r s
    drawSeq out.renderer out.scene rest

/-- Iterate `draw_frame`, returning every call's `DrawOut`. -/
def drawTrace (r : Renderer) (s : Scene) : List DrawEnv → List DrawOut
  | [] => []
  | env :: rest =>
    let out := draw_frame env r s
    out :: drawTrace out.renderer out.scene rest

/-! ### Concrete test fixtures used by witnesses -/

/-- A synthetic 3-image swapchain. -/
def scInit : Swapchain :=
  { handle := 1, image_views := [101, 102, 103], framebuffers := [201, 202, 203],
    extent := { width := 800, height := 600 } }

/-- A second synthetic swapchain, as produced by a resize. -/
def scNext : Swapchain :=
  { handle := 2, image_views := [111, 112, 113], framebuffers := [211, 212, 213],
    extent := { width := 640, height := 480 } }

/-- A scene of zero entities. -/
def sceneEmpty : Scene :=
  { camera_data := { position := [0, 0, 0, 0], aspect_ratio := 1 }, entities := [] }

/-- A per-call environment in which acquire and present both succeed. -/
def envOk : DrawEnv :=
  { acquireResult := VK_SUCCESS, imageIndex := 0, presentResult := VK_SUCCESS,
    resizeSwapchain := scNext }

/-- A per-call environment in which acquire reports the surface out of
date. -/
def envAcqOod : DrawEnv :=
  { acquireResult := VK_ERROR_OUT_OF_DATE_KHR, imageIndex := 0,
    presentResult := VK_SUCCESS, resizeSwapchain := scNext }

/-- A frame slot with signaled fences, empty deletion queues and an empty
mapped-buffer model. -/
def slotEmpty : FrameData :=
  { in_flight_fence := .signaled, present_fence := .signaled,
    delete_queue_framebuffers := [], delete_queue_image_views := [],
    global_buffer := { position := [0, 0, 0, 0], aspect_ratio := 0 },
    object_buffer := [] }

/-- A small 3-slot renderer state. -/
def rSmall : Renderer :=
  { swapchain := scInit, frames := [slotEmpty, slotEmpty, slotEmpty],
    current_frame_index := 0 }

/-- A scene with 10001 entities — one more than `MAX_OBJECT`. -/
def sceneBig : Scene :=
  { camera_data := { position := [0, 0, 0, 0], aspect_ratio := 1 },
    entities := List.replicate (MAX_OBJECT + 1)
      { mesh := { index_count := 3, first_index := 0, vertex_offset := 0 },
        data := { position := [0, 0, 0, 0], scale := 1 } } }

/-- A small batch of mesh uploads: 1 vertex + 3 indices, then 2 vertices +
1 index. -/
def meshBatch : List (List Vertex × List Nat) :=
  [([{ position := (0, 0, 0) }], [0, 1, 2]),
   ([{ position := (0, 0, 0) }, { position := (1, 0, 0) }], [0])]

/-! ## Theorems -/

/-- C5: Swapchain extent resolution — when the surface capabilities report
`currentExtent.width != u32::MAX` the current extent is used unchanged;
otherwise each dimension of the window's physical size is clamped into the
surface's `[min, max]` extent bounds; in particular, with bounds
`[100,100]`–`[800,800]` and window size 50×1000 the resolved extent is
100×800. -/
theorem chooseExtent_spec :
    (∀ caps w h, caps.currentExtent.width ≠ U32_MAX →
        chooseExtent caps w h = caps.currentExtent) ∧
    (∀ caps w h, caps.currentExtent.width = U32_MAX →
        (chooseExtent caps w h).width =
            max caps.minImageExtent.width (min caps.maxImageExtent.width w) ∧
        (chooseExtent caps w h).height =
            max caps.minImageExtent.height (min caps.maxImageExtent.height h) ∧
        (w ≤ caps.minImageExtent.width →
            (chooseExtent caps w h).width = caps.minImageExtent.width) ∧
        (caps.minImageExtent.width ≤ caps.maxImageExtent.width →
            caps.maxImageExtent.width ≤ w →
            (chooseExtent caps w h).width = caps.maxImageExtent.width) ∧
        (caps.minImageExtent.width ≤ w → w ≤ caps.maxImageExtent.width →
            (chooseExtent caps w h).width = w)) ∧
    chooseExtent
        { currentExtent := { width := U32_MAX, height := U32_MAX },
          minImageExtent := { width := 100, height := 100 },
          maxImageExtent := { width := 800, height := 800 } } 50 1000 =
      { width := 100, height := 800 } := by
  refine ⟨?_, ?_, by decide⟩
  · intro caps w h hne
    simp [chooseExtent, hne]
  · intro caps w h he
    refine ⟨by simp [chooseExtent, he], by simp [chooseExtent, he], ?_, ?_, ?_⟩
    · intro hw; simp [chooseExtent, he]; omega
    · intro hmm hw; simp [chooseExtent, he]; omega
    · intro h1 h2; simp [chooseExtent, he]; omega

/-- C5 witness: the general clamping clause applied at the concrete
capabilities record of the spec's example. -/
theorem chooseExtent_spec_witness :
    ((4294967295 : Nat) = U32_MAX) ∧
    (chooseExtent
        { currentExtent := { width := 4294967295, height := 4294967295 },
          minImageExtent := { width := 100, height := 100 },
          maxImageExtent := { width := 800, height := 800 } } 50 1000).width =
      max 100 (min 800 50) :=
  ⟨by decide,
   (chooseExtent_spec.2.1
      { currentExtent := { width := 4294967295, height := 4294967295 },
        minImageExtent := { width := 100, height := 100 },
        maxImageExtent := { width := 800, height := 800 } } 50 1000 (by decide)).1⟩

/-- C6: Surface format selection — the first list entry that is
`B8G8R8A8_UNORM`, sRGB nonlinear and reported color-attachment-capable is
chosen regardless of its position; if no entry matches all three conditions,
the first entry of the list is chosen. -/
theorem choose_surface_format_spec :
    (∀ (tf : Nat → Nat) (l1 : List VkSurfaceFormatKHR) f l2,
        (∀ g ∈ l1, formatPred tf g = false) → formatPred tf f = true →
        choose_surface_format tf (l1 ++ f :: l2) = some f) ∧
    (∀ (tf : Nat → Nat) (l : List VkSurfaceFormatKHR),
        (∀ g ∈ l, formatPred tf g = false) →
        choose_surface_format tf l = l.head?) ∧
    (∀ (tf : Nat → Nat) f, formatPred tf f = true ↔
        (tf f.format &&& VK_FORMAT_FEATURE_COLOR_ATTACHMENT_BIT ≠ 0 ∧
         f.format = VK_FORMAT_B8G8R8A8_UNORM ∧
         f.colorSpace = VK_COLOR_SPACE_SRGB_NONLINEAR_KHR)) := by
  refine ⟨?_, ?_, ?_⟩
  · intro tf l1 f l2 h1 hf
    unfold choose_surface_format
    rw [List.find?_append, List.find?_eq_none.mpr (fun x hx => by simp [h1 x hx]),
      List.find?_cons_of_pos _ hf]
    rfl
  · intro tf l h
    unfold choose_surface_format
    rw [List.find?_eq_none.mpr (fun x hx => by simp [h x hx])]
  · intro tf f
    simp [formatPred, and_assoc]

/-- C6 witness: a concrete format list whose only matching entry sits at
position 1 and is chosen; a list with no matching entry falls back to its
first entry. -/
theorem choose_surface_format_spec_witness :
    ((∀ g ∈ [({ format := 2, colorSpace := 7 } : VkSurfaceFormatKHR)],
        formatPred (fun _ => 128) g = false) ∧
      formatPred (fun _ => 128) { format := 44, colorSpace := 0 } = true ∧
      choose_surface_format (fun _ => 128)
          ([{ format := 2, colorSpace := 7 }] ++
            ({ format := 44, colorSpace := 0 } : VkSurfaceFormatKHR) ::
              [{ format := 3, colorSpace := 0 }]) =
        some { format := 44, colorSpace := 0 }) ∧
    ((∀ g ∈ [({ format := 2, colorSpace := 7 } : VkSurfaceFormatKHR),
              { format := 3, colorSpace := 0 }],
        formatPred (fun _ => 128) g = false) ∧
      choose_surface_format (fun _ => 128)
          [{ format := 2, colorSpace := 7 }, { format := 3, colorSpace := 0 }] =
        (([{ format := 2, colorSpace := 7 },
            { format := 3, colorSpace := 0 }] : List VkSurfaceFormatKHR)).head?) :=
  ⟨⟨by decide, by decide,
    choose_surface_format_spec.1 (fun _ => 128) [{ format := 2, colorSpace := 7 }]
      { format := 44, colorSpace := 0 } [{ format := 3, colorSpace := 0 }]
      (by decide) (by decide)⟩,
   ⟨by decide,
    choose_surface_format_spec.2.1 (fun _ => 128)
      [{ format := 2, colorSpace := 7 }, { format := 3, colorSpace := 0 }] (by decide)⟩⟩

/-- The scan of `find_memory_type` returns `none` exactly when no scanned
memory type matches. -/
theorem findMemGo_none_iff (tf props : Nat) (l : List Nat) :
    ∀ i, findMemGo tf props i l = none ↔
      ∀ j flags, l.get? j = some flags →
        ¬(tf &&& (1 <<< (i + j)) ≠ 0 ∧ flags &&& props = props) := by
  induction l with
  | nil => intro i; simp [findMemGo]
  | cons flags0 rest ih =>
    intro i
    unfold findMemGo
    by_cases hc : tf &&& (1 <<< i) ≠ 0 ∧ flags0 &&& props = props
    · rw [if_pos hc]
      simp only [reduceCtorEq, false_iff, not_forall]
      refine ⟨0, flags0, ?_⟩
      simp [hc]
    · rw [if_neg hc, ih (i + 1)]
      constructor
      · intro h j flags hj
        cases j with
        | zero =>
          simp only [List.get?_cons_zero, Option.some.injEq] at hj
          subst hj
          simpa using hc
        | succ j =>
          simp only [List.get?_cons_succ] at hj
          have := h j flags hj
          have harith : i + 1 + j = i + (j + 1) := by omega
          rwa [harith] at this
      · intro h j flags hj
        have := h (j + 1) flags (by simpa using hj)
        have harith : i + (j + 1) = i + 1 + j := by omega
        rwa [harith] at this

/-- If the scan of `find_memory_type` returns index `k`, then `k` matches and
every scanned index below `k` does not. -/
theorem findMemGo_some_spec (tf props : Nat) (l : List Nat) :
    ∀ i k, findMemGo tf props i l = some k →
      i ≤ k ∧
      (∃ flags, l.get? (k - i) = some flags ∧
        tf &&& (1 <<< k) ≠ 0 ∧ flags &&& props = props) ∧
      (∀ j, j < k - i → ∀ flags, l.get? j = some flags →
        ¬(tf &&& (1 <<< (i + j)) ≠ 0 ∧ flags &&& props = props)) := by
  induction l with
  | nil => intro i k h; simp [findMemGo] at h
  | cons flags0 rest ih =>
    intro i k h
    unfold findMemGo at h
    by_cases hc : tf &&& (1 <<< i) ≠ 0 ∧ flags0 &&& props = props
    · rw [if_pos hc] at h
      have hk : k = i := by simpa using h.symm
      subst hk
      refine ⟨le_refl _, ⟨flags0, by simp, hc.1, hc.2⟩, ?_⟩
      intro j hj
      omega
    · rw [if_neg hc] at h
      obtain ⟨hik, ⟨flags, hget, hbit, hsup⟩, hmin⟩ := ih (i + 1) k h
      refine ⟨by omega, ⟨flags, ?_, hbit, hsup⟩, ?_⟩
      · have : k - i = (k - (i + 1)) + 1 := by omega
        rw [this]
        simpa using hget
      · intro j hj flags1 hj1
        cases j with
        | zero =>
          simp only [List.get?_cons_zero, Option.some.injEq] at hj1
          subst hj1
          simpa using hc
        | succ j =>
          simp only [List.get?_cons_succ] at hj1
          have := hmin j (by omega) flags1 hj1
          have harith : i + (j + 1) = i + 1 + j := by omega
          rwa [harith]

/-- C7: Memory type selection — `find_memory_type` returns the lowest index
`i` such that bit `i` is set in the type filter and memory type `i`'s
property flags are a superset of the requested flags (in particular, filter
`0b0110` with only index 1 carrying the requested flags yields 1); if no
index satisfies both conditions it panics (modelled `none`), with no
recovery. -/
theorem find_memory_type_spec :
    (∀ tf props (memTypes : List Nat) k,
        find_memory_type tf props memTypes = some k →
        (∃ flags, memTypes.get? k = some flags ∧
          tf &&& (1 <<< k) ≠ 0 ∧ flags &&& props = props) ∧
        (∀ j, j < k → ∀ flags, memTypes.get? j = some flags →
          ¬(tf &&& (1 <<< j) ≠ 0 ∧ flags &&& props = props))) ∧
    (∀ tf props (memTypes : List Nat),
        (∀ j flags, memTypes.get? j = some flags →
          ¬(tf &&& (1 <<< j) ≠ 0 ∧ flags &&& props = props)) →
        find_memory_type tf props memTypes = none) ∧
    find_memory_type 6 1 [0, 1, 0] = some 1 := by
  refine ⟨?_, ?_, by decide⟩
  · intro tf props memTypes k h
    obtain ⟨hik, ⟨flags, hget, hbit, hsup⟩, hmin⟩ :=
      findMemGo_some_spec tf props memTypes 0 k h
    refine ⟨⟨flags, by simpa using hget, hbit, hsup⟩, ?_⟩
    intro j hj flags1 hj1
    have := hmin j (by omega) flags1 hj1
    simpa using this
  · intro tf props memTypes h
    exact (findMemGo_none_iff tf props memTypes 0).mpr
      (fun j flags hj => by simpa using h j flags hj)

/-- C7 witness: the soundness clause applied at the spec's concrete example
(filter `0b0110`, property table `[0, 1, 0]`, requested flags `1`). -/
theorem find_memory_type_spec_witness :
    ∃ flags, ([0, 1, 0] : List Nat).get? 1 = some flags ∧
      6 &&& (1 <<< 1) ≠ 0 ∧ flags &&& 1 = 1 :=
  (find_memory_type_spec.1 6 1 [0, 1, 0] 1 (by decide)).1

/-- C3: Arena allocation is monotonic, bounds-checked and atomic on failure —
for any sequence of `upload_mesh` calls whose cumulative vertex and index
bytes each stay within the fixed arena capacity, every call succeeds and
returns a descriptor recording the pre-call cursors (the source stores them
divided by the element sizes: `first_index * U32_SIZE` and
`vertex_offset * VERTEX_SIZE` are the pre-call byte cursors), then advances
both cursors by exactly the uploaded byte sizes, so offsets are
non-decreasing and non-overlapping across calls; a call whose vertex or
index bytes would exceed capacity fails (the source panics before mutating
any state, modelled as `none` with no successor state). -/
theorem upload_mesh_spec :
    (∀ ms v i,
        v + vertexBytes ms ≤ GLOBAL_BUFFER_SIZE →
        i + indexBytes ms ≤ GLOBAL_BUFFER_SIZE →
        uploadAll { vertex_buffer_offset := v, index_buffer_offset := i } ms =
          some (expectedMeshes v i ms,
            { vertex_buffer_offset := v + vertexBytes ms,
              index_buffer_offset := i + indexBytes ms })) ∧
    (∀ s vertices indices,
        s.vertex_buffer_offset + vertices.length * VERTEX_SIZE > GLOBAL_BUFFER_SIZE ∨
        s.index_buffer_offset + indices.length * U32_SIZE > GLOBAL_BUFFER_SIZE →
        upload_mesh s vertices indices = none) ∧
    (∀ s vertices indices m s1,
        upload_mesh s vertices indices = some (m, s1) →
        m.index_count = indices.length ∧
        m.first_index = s.index_buffer_offset / U32_SIZE ∧
        m.vertex_offset = s.vertex_buffer_offset / VERTEX_SIZE ∧
        s1.vertex_buffer_offset = s.vertex_buffer_offset + vertices.length * VERTEX_SIZE ∧
        s1.index_buffer_offset = s.index_buffer_offset + indices.length * U32_SIZE) := by
  have vertexBytes_cons : ∀ (vs : List Vertex) (inds : List Nat) tail,
      vertexBytes ((vs, inds) :: tail) = vs.length * VERTEX_SIZE + vertexBytes tail := by
    intro vs inds tail; simp [vertexBytes]
  have indexBytes_cons : ∀ (vs : List Vertex) (inds : List Nat) tail,
      indexBytes ((vs, inds) :: tail) = inds.length * U32_SIZE + indexBytes tail := by
    intro vs inds tail; simp [indexBytes]
  refine ⟨?_, ?_, ?_⟩
  · intro ms
    induction ms with
    | nil =>
      intro v i h1 h2
      simp [uploadAll, vertexBytes, indexBytes, expectedMeshes]
    | cons head tail ih =>
      obtain ⟨vs, inds⟩ := head
      intro v i h1 h2
      rw [vertexBytes_cons] at h1
      rw [indexBytes_cons] at h2
      have hv : ¬(v + vs.length * VERTEX_SIZE > GLOBAL_BUFFER_SIZE) := by omega
      have hi : ¬(i + inds.length * U32_SIZE > GLOBAL_BUFFER_SIZE) := by omega
      have hrec := ih (v + vs.length * VERTEX_SIZE) (i + inds.length * U32_SIZE)
        (by omega) (by omega)
      simp only [uploadAll, upload_mesh, if_neg hv, if_neg hi, hrec]
      simp only [expectedMeshes, vertexBytes_cons, indexBytes_cons]
      simp [Nat.add_assoc]
  · intro s vertices indices h
    rcases h with h | h
    · simp [upload_mesh, if_pos h]
    · unfold upload_mesh
      by_cases hv : s.vertex_buffer_offset + vertices.length * VERTEX_SIZE > GLOBAL_BUFFER_SIZE
      · rw [if_pos hv]
      · rw [if_neg hv, if_pos h]
  · intro s vertices indices m s1 h
    unfold upload_mesh at h
    by_cases hv : s.vertex_buffer_offset + vertices.length * VERTEX_SIZE > GLOBAL_BUFFER_SIZE
    · rw [if_pos hv] at h; cases h
    · rw [if_neg hv] at h
      by_cases hi : s.index_buffer_offset + indices.length * U32_SIZE > GLOBAL_BUFFER_SIZE
      · rw [if_pos hi] at h; cases h
      · rw [if_neg hi] at h
        injection h with h2
        injection h2 with hm hs
        subst hm
        subst hs
        exact ⟨rfl, rfl, rfl, rfl, rfl⟩

/-- C3 witness: the cumulative-capacity clause applied to the concrete
two-call batch `meshBatch` starting from fresh cursors. -/
theorem upload_mesh_spec_witness :
    (0 + vertexBytes meshBatch ≤ GLOBAL_BUFFER_SIZE) ∧
    (0 + indexBytes meshBatch ≤ GLOBAL_BUFFER_SIZE) ∧
    uploadAll { vertex_buffer_offset := 0, index_buffer_offset := 0 } meshBatch =
      some (expectedMeshes 0 0 meshBatch,
        { vertex_buffer_offset := 0 + vertexBytes meshBatch,
          index_buffer_offset := 0 + indexBytes meshBatch }) :=
  ⟨by decide, by decide, upload_mesh_spec.1 meshBatch 0 0 (by decide) (by decide)⟩

/-- `resize` never changes the round-robin index. -/
theorem resize_current_frame_index (r : Renderer) (sc : Swapchain) :
    (resize r sc).current_frame_index = r.current_frame_index := by
  unfold resize; split <;> rfl

/-- `resize` never changes the number of frame slots. -/
theorem resize_frames_length (r : Renderer) (sc : Swapchain) :
    (resize r sc).frames.length = r.frames.length := by
  unfold resize; split
  · rfl
  · simp

/-- `resize` appends the retiring swapchain's framebuffers and image views to
the current slot's deletion queues and changes nothing else in that slot. -/
theorem resize_get_current (r : Renderer) (sc : Swapchain) (f : FrameData)
    (h : r.frames[r.current_frame_index]? = some f) :
    (resize r sc).frames[r.current_frame_index]? =
      some { f with
        delete_queue_framebuffers :=
          f.delete_queue_framebuffers ++ r.swapchain.framebuffers,
        delete_queue_image_views :=
          f.delete_queue_image_views ++ r.swapchain.image_views } := by
  have hlt : r.current_frame_index < r.frames.length := (List.getElem?_eq_some.mp h).1
  unfold resize
  rw [h]
  exact List.getElem?_set_eq_of_lt _ hlt

/-- `resize` leaves every other frame slot untouched. -/
theorem resize_get_ne (r : Renderer) (sc : Swapchain) (j : Nat)
    (h : j ≠ r.current_frame_index) :
    (resize r sc).frames[j]? = r.frames[j]? := by
  unfold resize; split
  · rfl
  · exact List.getElem?_set_ne (Ne.symm h)

/-- The fence wait of `draw_frame` always completes. -/
theorem drawBody_waited (env : DrawEnv) (r : Renderer) (idx : Nat) (f : FrameData)
    (s : Scene) : (drawBody env r idx f s).waited = true := by
  simp only [drawBody]; split_ifs <;> rfl

/-- The drain at the top of `draw_frame` destroys exactly the active slot's
queued framebuffers, in every branch of the call. -/
theorem drawBody_freed_framebuffers (env : DrawEnv) (r : Renderer) (idx : Nat)
    (f : FrameData) (s : Scene) :
    (drawBody env r idx f s).freed_framebuffers = f.delete_queue_framebuffers := by
  simp only [drawBody]; split_ifs <;> rfl

/-- The drain at the top of `draw_frame` destroys exactly the active slot's
queued image views, in every branch of the call. -/
theorem drawBody_freed_image_views (env : DrawEnv) (r : Renderer) (idx : Nat)
    (f : FrameData) (s : Scene) :
    (drawBody env r idx f s).freed_image_views = f.delete_queue_image_views := by
  simp only [drawBody]; split_ifs <;> rfl

/-- In every branch, the scene leaves `draw_frame` with only its camera
aspect ratio overwritten (from the swapchain extent current at entry). -/
theorem drawBody_scene (env : DrawEnv) (r : Renderer) (idx : Nat) (f : FrameData)
    (s : Scene) :
    (drawBody env r idx f s).scene =
      { s with
        camera_data :=
          { s.camera_data with
            aspect_ratio :=
              (r.swapchain.extent.width : ℚ) / (r.swapchain.extent.height : ℚ) } } := by
  simp only [drawBody]; split_ifs <;> rfl

/-- The body of `draw_frame` never changes the round-robin index. -/
theorem drawBody_current_frame_index (env : DrawEnv) (r : Renderer) (idx : Nat)
    (f : FrameData) (s : Scene) :
    (drawBody env r idx f s).renderer.current_frame_index = r.current_frame_index := by
  simp only [drawBody]; split_ifs <;> simp [resize_current_frame_index]

/-- The body of `draw_frame` never changes the number of frame slots. -/
theorem drawBody_frames_length (env : DrawEnv) (r : Renderer) (idx : Nat)
    (f : FrameData) (s : Scene) :
    (drawBody env r idx f s).renderer.frames.length = r.frames.length := by
  simp only [drawBody]; split_ifs <;> simp [resize_frames_length]

/-- The body of `draw_frame` touches no frame slot other than the active one
(which is also the only one its internal `resize` can push into). -/
theorem drawBody_get_ne (env : DrawEnv) (r : Renderer) (idx : Nat) (f : FrameData)
    (s : Scene) (j : Nat) (hj : j ≠ idx) (hjc : j ≠ r.current_frame_index) :
    (drawBody env r idx f s).renderer.frames[j]? = r.frames[j]? := by
  have hj' : idx ≠ j := Ne.symm hj
  simp only [drawBody]; split_ifs <;>
    simp [resize_get_ne, List.getElem?_set_ne, hj', hjc]

/-- When the active slot exists and its fences are not unsignaled,
`draw_frame` runs its body on that slot with the index advanced. -/
theorem draw_frame_eq_drawBody (env : DrawEnv) (r0 : Renderer) (s : Scene)
    (frame : FrameData)
    (hget : r0.frames[(r0.current_frame_index + 1) % r0.frames.length]? = some frame)
    (hw1 : frame.in_flight_fence ≠ .unsignaled)
    (hw2 : frame.present_fence ≠ .unsignaled) :
    draw_frame env r0 s =
      drawBody env
        { r0 with current_frame_index := (r0.current_frame_index + 1) % r0.frames.length }
        ((r0.current_frame_index + 1) % r0.frames.length) frame s := by
  unfold draw_frame
  split
  · next heq => rw [hget] at heq; cases heq
  · next f heq =>
    rw [hget] at heq
    injection heq with h
    subst h
    rw [if_neg (by simp [hw1, hw2])]

/-- `draw_frame` advances the round-robin index by `(i + 1) % frames.len()`
at the top of every call, in every branch. -/
theorem draw_frame_current_frame_index (env : DrawEnv) (r0 : Renderer) (s : Scene) :
    (draw_frame env r0 s).renderer.current_frame_index =
      (r0.current_frame_index + 1) % r0.frames.length := by
  unfold draw_frame
  split
  · rfl
  · split_ifs
    · rfl
    · rw [drawBody_current_frame_index]

/-- `draw_frame` never changes the number of frame slots. -/
theorem draw_frame_frames_length (env : DrawEnv) (r0 : Renderer) (s : Scene) :
    (draw_frame env r0 s).renderer.frames.length = r0.frames.length := by
  unfold draw_frame
  split
  · rfl
  · split_ifs
    · rfl
    · rw [drawBody_frames_length]

/-- `draw_frame` touches no frame slot other than the active one. -/
theorem draw_frame_get_ne (env : DrawEnv) (r0 : Renderer) (s : Scene) (j : Nat)
    (hj : j ≠ (r0.current_frame_index + 1) % r0.frames.length) :
    (draw_frame env r0 s).renderer.frames[j]? = r0.frames[j]? := by
  unfold draw_frame
  split
  · rfl
  · split_ifs
    · rfl
    · exact drawBody_get_ne _ _ _ _ _ _ hj hj

/-- Iterating `draw_frame` from a 3-slot renderer adds the number of calls to
the index, modulo 3. -/
theorem drawSeq_current_frame_index :
    ∀ (envs : List DrawEnv) (r : Renderer) (s : Scene),
      r.frames.length = 3 → r.current_frame_index < 3 →
      (drawSeq r s envs).1.current_frame_index =
        (r.current_frame_index + envs.length) % 3 := by
  intro envs
  induction envs with
  | nil =>
    intro r s _ hidx
    simp [drawSeq, Nat.mod_eq_of_lt hidx]
  | cons env rest ih =>
    intro r s hlen hidx
    have hl : (draw_frame env r s).renderer.frames.length = 3 := by
      rw [draw_frame_frames_length]; exact hlen
    have hi : (draw_frame env r s).renderer.current_frame_index < 3 := by
      rw [draw_frame_current_frame_index, hlen]; omega
    unfold drawSeq
    rw [ih _ _ hl hi, draw_frame_current_frame_index, hlen]
    simp only [List.length_cons]
    omega

/-- C2: Frame slot round-robin — the active index is advanced by
`(i + 1) mod N` at the top of every `draw_frame` call, before any other
step, and starting from a freshly constructed `Renderer`
(`current_frame_index = 0`), after K completed calls the index equals
`K mod 3` for every K ≥ 0. -/
theorem draw_frame_round_robin :
    (∀ env r s, (draw_frame env r s).renderer.current_frame_index =
        (r.current_frame_index + 1) % r.frames.length) ∧
    (∀ sc scene (envs : List DrawEnv),
        (∀ o ∈ drawTrace (Renderer.new sc) scene envs,
            o.outcome ≠ .fatal ∧ o.outcome ≠ .deadlocked) →
        (drawSeq (Renderer.new sc) scene envs).1.current_frame_index =
          envs.length % 3) := by
  constructor
  · exact draw_frame_current_frame_index
  · intro sc scene envs _
    have h := drawSeq_current_frame_index envs (Renderer.new sc) scene
      (by simp [Renderer.new, MAX_FRAMES_IN_FLIGHT]) (by simp [Renderer.new])
    simpa [Renderer.new] using h

/-- C2 witness: four all-successful calls from a fresh renderer leave the
index at `4 mod 3 = 1`. -/
theorem draw_frame_round_robin_witness :
    (∀ o ∈ drawTrace (Renderer.new scInit) sceneEmpty (List.replicate 4 envOk),
        o.outcome ≠ .fatal ∧ o.outcome ≠ .deadlocked) ∧
    (drawSeq (Renderer.new scInit) sceneEmpty (List.replicate 4 envOk)).1.current_frame_index =
      (List.replicate 4 envOk).length % 3 :=
  ⟨by decide,
   draw_frame_round_robin.2 scInit sceneEmpty (List.replicate 4 envOk) (by decide)⟩

/-- C8 counterexample: from a freshly constructed renderer with a 3-image
swapchain and a scene of zero entities, 10 successful draw calls do *not*
visit the slot indices 0,1,2,0,1,2,0,1,2,0 — the index is advanced before
use, so the first call already runs on slot 1. -/
theorem draw_run10_not_from_zero :
    ¬((drawTrace (Renderer.new scInit) sceneEmpty (List.replicate 10 envOk)).map
        (fun o => o.renderer.current_frame_index) =
      [0, 1, 2, 0, 1, 2, 0, 1, 2, 0]) := by
  decide

/-- C8 (amended): from a freshly constructed renderer with a 3-image
swapchain and a scene of zero entities, 10 successive draw calls visit the
slot indices 1,2,0,1,2,0,1,2,0,1 in that order (the index is advanced at the
top of each call, so the first call uses slot 1), none of them deadlocks or
panics, and each slot's in-flight and present fences are left attached to
its most recent submit/present (pending GPU completion, never unsignaled),
so a further wait on them cannot deadlock. -/
theorem draw_run10_spec :
    ((drawTrace (Renderer.new scInit) sceneEmpty (List.replicate 10 envOk)).map
        (fun o => o.renderer.current_frame_index) =
      [1, 2, 0, 1, 2, 0, 1, 2, 0, 1]) ∧
    (∀ o ∈ drawTrace (Renderer.new scInit) sceneEmpty (List.replicate 10 envOk),
        o.outcome = .ok) ∧
    (∀ f ∈ (drawSeq (Renderer.new scInit) sceneEmpty (List.replicate 10 envOk)).1.frames,
        f.in_flight_fence = .pending ∧ f.present_fence = .pending) := by
  refine ⟨by decide, by decide, by decide⟩

/-- C9: Scene frame condition — in every branch of a `draw_frame` call that
passes the fence wait, the only field of the input scene the renderer
modifies is the camera's aspect ratio, set to the current swapchain extent's
width divided by its height; the camera position and the entity list (mesh
descriptors and per-instance data) are returned unchanged. -/
theorem draw_frame_scene_effect (env : DrawEnv) (r : Renderer) (s : Scene)
    (frame : FrameData)
    (hget : r.frames[(r.current_frame_index + 1) % r.frames.length]? = some frame)
    (hw1 : frame.in_flight_fence ≠ .unsignaled)
    (hw2 : frame.present_fence ≠ .unsignaled) :
    (draw_frame env r s).scene.camera_data.aspect_ratio =
        (r.swapchain.extent.width : ℚ) / (r.swapchain.extent.height : ℚ) ∧
    (draw_frame env r s).scene.camera_data.position = s.camera_data.position ∧
    (draw_frame env r s).scene.entities = s.entities := by
  rw [draw_frame_eq_drawBody env r s frame hget hw1 hw2, drawBody_scene]
  exact ⟨rfl, rfl, rfl⟩

/-- C9 witness: one successful draw on a fresh renderer with an 800×600
extent sets the aspect ratio to 800/600 and changes nothing else in the
scene. -/
theorem draw_frame_scene_effect_witness :
    ((Renderer.new scInit).frames[((Renderer.new scInit).current_frame_index + 1) %
        (Renderer.new scInit).frames.length]? = some FrameData.init) ∧
    (FrameData.init.in_flight_fence ≠ .unsignaled) ∧
    (FrameData.init.present_fence ≠ .unsignaled) ∧
    ((draw_frame envOk (Renderer.new scInit) sceneEmpty).scene.camera_data.aspect_ratio =
        ((Renderer.new scInit).swapchain.extent.width : ℚ) /
          ((Renderer.new scInit).swapchain.extent.height : ℚ) ∧
      (draw_frame envOk (Renderer.new scInit) sceneEmpty).scene.camera_data.position =
        sceneEmpty.camera_data.position ∧
      (draw_frame envOk (Renderer.new scInit) sceneEmpty).scene.entities =
        sceneEmpty.entities) :=
  ⟨rfl, by decide, by decide,
   draw_frame_scene_effect envOk (Renderer.new scInit) sceneEmpty FrameData.init
     rfl (by decide) (by decide)⟩

/-- C4: Presentation-staleness handling in `draw_frame` — an out-of-date
acquire triggers a resize and returns immediately (fences not reset, still
signaled; nothing recorded, submitted or presented); a suboptimal acquire
proceeds to render; an out-of-date or suboptimal present triggers a resize;
any other non-success result from acquire or present is fatal (panic). -/
theorem draw_frame_staleness (env : DrawEnv) (r : Renderer) (s : Scene)
    (frame : FrameData)
    (hget : r.frames[(r.current_frame_index + 1) % r.frames.length]? = some frame)
    (hw1 : frame.in_flight_fence ≠ .unsignaled)
    (hw2 : frame.present_fence ≠ .unsignaled) :
    (env.acquireResult = VK_ERROR_OUT_OF_DATE_KHR →
      (draw_frame env r s).outcome = .acquireOutOfDate ∧
      (draw_frame env r s).resize_triggered = true ∧
      (draw_frame env r s).fences_reset = false ∧
      (draw_frame env r s).recorded_draws = [] ∧
      (draw_frame env r s).submitted = false ∧
      (draw_frame env r s).present_called = false ∧
      ((draw_frame env r s).renderer.frames[(r.current_frame_index + 1) %
          r.frames.length]?).map (fun f => (f.in_flight_fence, f.present_fence)) =
        some (.signaled, .signaled)) ∧
    (env.acquireResult = VK_SUBOPTIMAL_KHR ∧ env.presentResult = VK_SUCCESS →
      (draw_frame env r s).outcome = .ok ∧
      (draw_frame env r s).submitted = true ∧
      (draw_frame env r s).present_called = true ∧
      (draw_frame env r s).resize_triggered = false) ∧
    ((env.acquireResult = VK_SUCCESS ∨ env.acquireResult = VK_SUBOPTIMAL_KHR) →
      (env.presentResult = VK_ERROR_OUT_OF_DATE_KHR ∨
        env.presentResult = VK_SUBOPTIMAL_KHR) →
      (draw_frame env r s).resize_triggered = true ∧
      (draw_frame env r s).outcome = .ok ∧
      (draw_frame env r s).submitted = true ∧
      (draw_frame env r s).present_called = true) ∧
    (env.acquireResult ≠ VK_ERROR_OUT_OF_DATE_KHR → env.acquireResult ≠ VK_SUCCESS →
      env.acquireResult ≠ VK_SUBOPTIMAL_KHR →
      (draw_frame env r s).outcome = .fatal ∧
      (draw_frame env r s).submitted = false ∧
      (draw_frame env r s).present_called = false ∧
      (draw_frame env r s).resize_triggered = false) ∧
    ((env.acquireResult = VK_SUCCESS ∨ env.acquireResult = VK_SUBOPTIMAL_KHR) →
      env.presentResult ≠ VK_SUCCESS → env.presentResult ≠ VK_ERROR_OUT_OF_DATE_KHR →
      env.presentResult ≠ VK_SUBOPTIMAL_KHR →
      (draw_frame env r s).outcome = .fatal ∧
      (draw_frame env r s).submitted = true ∧
      (draw_frame env r s).present_called = true ∧
      (draw_frame env r s).resize_triggered = false) := by
  have hlt : (r.current_frame_index + 1) % r.frames.length < r.frames.length :=
    (List.getElem?_eq_some.mp hget).1
  rw [draw_frame_eq_drawBody env r s frame hget hw1 hw2]
  refine ⟨?_, ?_, ?_, ?_, ?_⟩
  · intro hacq
    simp only [drawBody]
    rw [if_pos hacq]
    refine ⟨rfl, rfl, rfl, rfl, rfl, rfl, ?_⟩
    simp [resize, List.getElem?_set_eq_of_lt, hlt]
  · rintro ⟨hacq, hpres⟩
    simp only [VK_SUCCESS, VK_SUBOPTIMAL_KHR, VK_ERROR_OUT_OF_DATE_KHR] at hacq hpres
    simp [drawBody, hacq, hpres, VK_SUCCESS, VK_SUBOPTIMAL_KHR, VK_ERROR_OUT_OF_DATE_KHR]
  · rintro (hacq | hacq) (hpres | hpres) <;>
    all_goals
      simp only [VK_SUCCESS, VK_SUBOPTIMAL_KHR, VK_ERROR_OUT_OF_DATE_KHR] at hacq hpres
    all_goals
      simp [drawBody, hacq, hpres, VK_SUCCESS, VK_SUBOPTIMAL_KHR, VK_ERROR_OUT_OF_DATE_KHR]
  · intro h1 h2 h3
    simp only [VK_SUCCESS, VK_SUBOPTIMAL_KHR, VK_ERROR_OUT_OF_DATE_KHR] at h1 h2 h3
    simp [drawBody, h1, h2, h3, VK_SUCCESS, VK_SUBOPTIMAL_KHR, VK_ERROR_OUT_OF_DATE_KHR]
  · rintro (hacq | hacq) h1 h2 h3 <;>
    all_goals
      simp only [VK_SUCCESS, VK_SUBOPTIMAL_KHR, VK_ERROR_OUT_OF_DATE_KHR] at hacq h1 h2 h3
    all_goals
      simp [drawBody, hacq, h1, h2, h3, VK_SUCCESS, VK_SUBOPTIMAL_KHR,
        VK_ERROR_OUT_OF_DATE_KHR]

/-- C4 witness: the out-of-date-acquire clause applied to a fresh renderer. -/
theorem draw_frame_staleness_witness :
    ((Renderer.new scInit).frames[((Renderer.new scInit).current_frame_index + 1) %
        (Renderer.new scInit).frames.length]? = some FrameData.init) ∧
    (envAcqOod.acquireResult = VK_ERROR_OUT_OF_DATE_KHR) ∧
    ((draw_frame envAcqOod (Renderer.new scInit) sceneEmpty).outcome = .acquireOutOfDate ∧
      (draw_frame envAcqOod (Renderer.new scInit) sceneEmpty).resize_triggered = true ∧
      (draw_frame envAcqOod (Renderer.new scInit) sceneEmpty).fences_reset = false ∧
      (draw_frame envAcqOod (Renderer.new scInit) sceneEmpty).recorded_draws = [] ∧
      (draw_frame envAcqOod (Renderer.new scInit) sceneEmpty).submitted = false ∧
      (draw_frame envAcqOod (Renderer.new scInit) sceneEmpty).present_called = false ∧
      ((draw_frame envAcqOod (Renderer.new scInit) sceneEmpty).renderer.frames[
          ((Renderer.new scInit).current_frame_index + 1) %
            (Renderer.new scInit).frames.length]?).map
          (fun f => (f.in_flight_fence, f.present_fence)) =
        some (.signaled, .signaled)) :=
  ⟨rfl, rfl,
   (draw_frame_staleness envAcqOod (Renderer.new scInit) sceneEmpty FrameData.init
      rfl (by decide) (by decide)).1 rfl⟩

/-- The entity-copy loop never changes the buffer's length (it writes only
within it). -/
theorem copyObjects_length :
    ∀ (ents : List Entity) (buf : List ObjectData) (i : Nat),
      (copyObjects buf ents i).length = buf.length := by
  intro ents
  induction ents with
  | nil => intro buf i; rfl
  | cons e rest ih =>
    intro buf i
    unfold copyObjects
    split_ifs with h
    · rfl
    · rw [ih, List.length_set]

/-- The entity-copy loop leaves positions below its start index untouched. -/
theorem copyObjects_get_lt_start :
    ∀ (ents : List Entity) (buf : List ObjectData) (i j : Nat),
      j < i → (copyObjects buf ents i)[j]? = buf[j]? := by
  intro ents
  induction ents with
  | nil => intro buf i j _; rfl
  | cons e rest ih =>
    intro buf i j hj
    unfold copyObjects
    split_ifs with h
    · rfl
    · rw [ih _ (i + 1) j (by omega), List.getElem?_set_ne (by omega : i ≠ j)]

/-- The entity-copy loop leaves every position at or beyond `MAX_OBJECT`
untouched: the break at the bound keeps all writes inside the first
`MAX_OBJECT` slots. -/
theorem copyObjects_get_ge_max :
    ∀ (ents : List Entity) (buf : List ObjectData) (i j : Nat),
      MAX_OBJECT ≤ j → (copyObjects buf ents i)[j]? = buf[j]? := by
  intro ents
  induction ents with
  | nil => intro buf i j _; rfl
  | cons e rest ih =>
    intro buf i j hj
    unfold copyObjects
    split_ifs with h
    · rfl
    · rw [ih _ (i + 1) j hj, List.getElem?_set_ne (by omega : i ≠ j)]

/-- Within the copied range, the entity-copy loop stores entity `j - i` at
position `j`. -/
theorem copyObjects_get_in :
    ∀ (ents : List Entity) (buf : List ObjectData) (i j : Nat),
      i ≤ j → j < MAX_OBJECT → j - i < ents.length → j < buf.length →
      (copyObjects buf ents i)[j]? = (ents[j - i]?).map (fun e => e.data) := by
  intro ents
  induction ents with
  | nil => intro buf i j _ _ h3 _; simp at h3
  | cons e rest ih =>
    intro buf i j hij hjm hlen hbuf
    unfold copyObjects
    rw [if_neg (by omega : ¬i ≥ MAX_OBJECT)]
    by_cases hji : j = i
    · subst hji
      rw [copyObjects_get_lt_start rest _ (j + 1) j (by omega),
        List.getElem?_set_eq_of_lt _ hbuf]
      simp
    · rw [ih (buf.set i e.data) (i + 1) j (by omega) hjm
        (by simp only [List.length_cons] at hlen; omega) (by simpa using hbuf)]
      rw [show j - i = (j - (i + 1)) + 1 from by omega]
      simp

/-- The command-recording loop records one draw per scene entity. -/
theorem recordDraws_length :
    ∀ (ents : List Entity) (k : Nat), (recordDraws ents k).length = ents.length := by
  intro ents
  induction ents with
  | nil => intro k; rfl
  | cons e rest ih => intro k; simp [recordDraws, ih]

/-- The command-recording loop pairs entity `j` with push constant `k + j`. -/
theorem recordDraws_get :
    ∀ (ents : List Entity) (k j : Nat),
      (recordDraws ents k)[j]? = (ents[j]?).map (fun e => (k + j, e.mesh)) := by
  intro ents
  induction ents with
  | nil => intro k j; simp [recordDraws]
  | cons e rest ih =>
    intro k j
    cases j with
    | zero => simp [recordDraws]
    | succ j =>
      simp only [recordDraws, List.getElem?_cons_succ]
      rw [ih (k + 1) j, show k + 1 + j = k + (j + 1) from by omega]

/-- In every branch of the draw body, the active slot's mapped object buffer
leaves the call holding exactly what the copy loop wrote into it. -/
theorem drawBody_active_object_buffer (env : DrawEnv) (r : Renderer) (idx : Nat)
    (frame : FrameData) (s : Scene)
    (hcur : r.current_frame_index = idx) (hlt : idx < r.frames.length) :
    ((drawBody env r idx frame s).renderer.frames[idx]?).map (fun f => f.object_buffer) =
      some (copyObjects frame.object_buffer s.entities 0) := by
  simp only [drawBody]
  split_ifs <;> simp [resize, List.getElem?_set_eq_of_lt, hlt, hcur]

/-- When acquire succeeds, the recorded command stream contains the
push-constant/draw pair sequence over all scene entities. -/
theorem drawBody_recorded_draws_success (env : DrawEnv) (r : Renderer) (idx : Nat)
    (frame : FrameData) (s : Scene)
    (hacq : env.acquireResult = VK_SUCCESS) :
    (drawBody env r idx frame s).recorded_draws = recordDraws s.entities 0 := by
  simp only [VK_SUCCESS] at hacq
  simp only [drawBody]
  rw [if_neg (by simp [hacq, VK_ERROR_OUT_OF_DATE_KHR]),
    if_neg (by simp [hacq, VK_SUCCESS])]
  split_ifs <;> rfl

/-- C10: Object-count truncation at the public interface — for a `draw_frame`
call whose scene holds more than `MAX_OBJECT` (10,000) entities, only the
first `MAX_OBJECT` entities' per-instance data is written into the slot's
mapped object buffer (the copy loop breaks at the bound, so the write never
exceeds the buffer's capacity), yet a push-constant update and an indexed
draw are still recorded for every entity of the scene, including those whose
data was never copied. -/
theorem draw_frame_object_truncation (env : DrawEnv) (r : Renderer) (s : Scene)
    (frame : FrameData)
    (hget : r.frames[(r.current_frame_index + 1) % r.frames.length]? = some frame)
    (hw1 : frame.in_flight_fence ≠ .unsignaled)
    (hw2 : frame.present_fence ≠ .unsignaled)
    (hbuf : frame.object_buffer.length = MAX_OBJECT)
    (hcount : MAX_OBJECT < s.entities.length)
    (hacq : env.acquireResult = VK_SUCCESS) :
    (((draw_frame env r s).renderer.frames[(r.current_frame_index + 1) %
          r.frames.length]?).map (fun f => f.object_buffer.length) =
        some MAX_OBJECT) ∧
    (∀ j, j < MAX_OBJECT →
        ((draw_frame env r s).renderer.frames[(r.current_frame_index + 1) %
            r.frames.length]?).bind (fun f => f.object_buffer[j]?) =
          (s.entities[j]?).map (fun e => e.data)) ∧
    (∀ j, MAX_OBJECT ≤ j →
        ((draw_frame env r s).renderer.frames[(r.current_frame_index + 1) %
            r.frames.length]?).bind (fun f => f.object_buffer[j]?) = none) ∧
    (draw_frame env r s).recorded_draws.length = s.entities.length ∧
    (∀ k : Nat, (draw_frame env r s).recorded_draws[k]? =
        (s.entities[k]?).map (fun e : Entity => (k, e.mesh))) := by
  have hlt : (r.current_frame_index + 1) % r.frames.length < r.frames.length :=
    (List.getElem?_eq_some.mp hget).1
  rw [draw_frame_eq_drawBody env r s frame hget hw1 hw2]
  have hActive := drawBody_active_object_buffer env
    { r with current_frame_index := (r.current_frame_index + 1) % r.frames.length }
    ((r.current_frame_index + 1) % r.frames.length) frame s rfl hlt
  obtain ⟨f0, hf0, hob⟩ := Option.map_eq_some'.mp hActive
  have hRec := drawBody_recorded_draws_success env
    { r with current_frame_index := (r.current_frame_index + 1) % r.frames.length }
    ((r.current_frame_index + 1) % r.frames.length) frame s hacq
  refine ⟨?_, ?_, ?_, ?_, ?_⟩
  · rw [hf0]
    simp [hob, copyObjects_length, hbuf]
  · intro j hj
    rw [hf0, Option.some_bind, hob,
      copyObjects_get_in s.entities frame.object_buffer 0 j (by omega) hj
        (by omega) (by omega)]
    simp
  · intro j hj
    rw [hf0, Option.some_bind, hob]
    refine List.getElem?_eq_none_iff.mpr ?_
    rw [copyObjects_length, hbuf]
    exact hj
  · rw [hRec, recordDraws_length]
  · intro k
    rw [hRec, recordDraws_get]
    simp

/-- C10 witness: a draw over a scene of 10001 entities still records 10001
draws, one per entity. -/
theorem draw_frame_object_truncation_witness :
    (FrameData.init.object_buffer.length = MAX_OBJECT) ∧
    (MAX_OBJECT < sceneBig.entities.length) ∧
    (draw_frame envOk (Renderer.new scInit) sceneBig).recorded_draws.length =
      sceneBig.entities.length :=
  ⟨by simp only [FrameData.init, List.length_replicate],
   by simp only [sceneBig, List.length_replicate]; omega,
   (draw_frame_object_truncation envOk (Renderer.new scInit) sceneBig FrameData.init
      rfl (by decide) (by decide)
      (by simp only [FrameData.init, List.length_replicate])
      (by simp only [sceneBig, List.length_replicate]; omega) rfl).2.2.2.1⟩

/-- When a draw does not trigger a resize, its active slot leaves the call
with both deletion queues empty: the drain cleared them and nothing was
pushed afterwards. -/
theorem drawBody_active_queues (env : DrawEnv) (r : Renderer) (idx : Nat)
    (frame : FrameData) (s : Scene)
    (hlt : idx < r.frames.length)
    (hnr : (drawBody env r idx frame s).resize_triggered = false) :
    ((drawBody env r idx frame s).renderer.frames[idx]?).map
      (fun f => (f.delete_queue_framebuffers, f.delete_queue_image_views)) =
      some ([], []) := by
  simp only [drawBody] at hnr ⊢
  split_ifs at hnr ⊢ <;>
    simp_all [List.getElem?_set_eq_of_lt, hlt]

/-- C1: Deferred deletion — the framebuffers and image views that `resize`
pushes into the frame slot that is current (slot index `i`) are destroyed
only when slot `i` next becomes the active slot in a draw call, i.e. after
the `N - 1 = 2` intervening draw calls that run on the other two slots;
those intervening draws drain only their own slots' queues and cannot touch
the pushed resources, the deletion-queue drain — which runs right after the
slot's in-flight and present fences have both been waited on — is the only
point at which any retired framebuffer or image view is destroyed, and it
clears both queues of the slot it drains. -/
theorem deferred_deletion_spec (r : Renderer) (newSc : Swapchain)
    (e1 e2 e3 : DrawEnv) (s1 s2 s3 : Scene) (fi f1 f2 : FrameData)
    (hlen : r.frames.length = 3)
    (hcur : r.current_frame_index < 3)
    (hfi : r.frames[r.current_frame_index]? = some fi)
    (hf1 : r.frames[(r.current_frame_index + 1) % 3]? = some f1)
    (hf2 : r.frames[(r.current_frame_index + 2) % 3]? = some f2)
    (hfiw : fi.in_flight_fence ≠ .unsignaled) (hfip : fi.present_fence ≠ .unsignaled)
    (hf1w : f1.in_flight_fence ≠ .unsignaled) (hf1p : f1.present_fence ≠ .unsignaled)
    (hf2w : f2.in_flight_fence ≠ .unsignaled) (hf2p : f2.present_fence ≠ .unsignaled)
    (hd1f : ∀ a ∈ r.swapchain.framebuffers, a ∉ f1.delete_queue_framebuffers)
    (hd1v : ∀ a ∈ r.swapchain.image_views, a ∉ f1.delete_queue_image_views)
    (hd2f : ∀ a ∈ r.swapchain.framebuffers, a ∉ f2.delete_queue_framebuffers)
    (hd2v : ∀ a ∈ r.swapchain.image_views, a ∉ f2.delete_queue_image_views)
    (r1 : Renderer) (out1 out2 out3 : DrawOut)
    (hr1 : r1 = resize r newSc)
    (h1 : out1 = draw_frame e1 r1 s1)
    (h2 : out2 = draw_frame e2 out1.renderer s2)
    (h3 : out3 = draw_frame e3 out2.renderer s3) :
    (r1.frames[r.current_frame_index]? =
      some { fi with
        delete_queue_framebuffers :=
          fi.delete_queue_framebuffers ++ r.swapchain.framebuffers,
        delete_queue_image_views :=
          fi.delete_queue_image_views ++ r.swapchain.image_views }) ∧
    (out1.waited = true ∧
      out1.freed_framebuffers = f1.delete_queue_framebuffers ∧
      out1.freed_image_views = f1.delete_queue_image_views) ∧
    (out2.waited = true ∧
      out2.freed_framebuffers = f2.delete_queue_framebuffers ∧
      out2.freed_image_views = f2.delete_queue_image_views) ∧
    (∀ a ∈ r.swapchain.framebuffers,
      a ∉ out1.freed_framebuffers ∧ a ∉ out2.freed_framebuffers) ∧
    (∀ a ∈ r.swapchain.image_views,
      a ∉ out1.freed_image_views ∧ a ∉ out2.freed_image_views) ∧
    (out3.renderer.current_frame_index = r.current_frame_index) ∧
    (out3.waited = true) ∧
    (out3.freed_framebuffers =
      fi.delete_queue_framebuffers ++ r.swapchain.framebuffers) ∧
    (out3.freed_image_views =
      fi.delete_queue_image_views ++ r.swapchain.image_views) ∧
    (out3.resize_triggered = false →
      (out3.renderer.frames[r.current_frame_index]?).map
        (fun f => (f.delete_queue_framebuffers, f.delete_queue_image_views)) =
        some ([], [])) := by
  subst hr1
  subst h1
  subst h2
  subst h3
  have hi1 : (r.current_frame_index + 1) % 3 ≠ r.current_frame_index := by omega
  have hi2 : (r.current_frame_index + 2) % 3 ≠ r.current_frame_index := by omega
  have hi12 : (r.current_frame_index + 2) % 3 ≠ (r.current_frame_index + 1) % 3 := by
    omega
  -- Facts about the resized renderer.
  have hr1idx : (resize r newSc).current_frame_index = r.current_frame_index :=
    resize_current_frame_index r newSc
  have hr1len : (resize r newSc).frames.length = 3 := by
    rw [resize_frames_length]; exact hlen
  have hr1i := resize_get_current r newSc fi hfi
  have hr11 : (resize r newSc).frames[(r.current_frame_index + 1) % 3]? = some f1 := by
    rw [resize_get_ne r newSc _ hi1]; exact hf1
  have hr12 : (resize r newSc).frames[(r.current_frame_index + 2) % 3]? = some f2 := by
    rw [resize_get_ne r newSc _ hi2]; exact hf2
  -- The first draw runs on slot (i+1) % 3.
  have hidx1 : ((resize r newSc).current_frame_index + 1) % (resize r newSc).frames.length =
      (r.current_frame_index + 1) % 3 := by
    rw [hr1idx, hr1len]
  have hget1 : (resize r newSc).frames[((resize r newSc).current_frame_index + 1) %
      (resize r newSc).frames.length]? = some f1 := by
    rw [hidx1]; exact hr11
  have heq1 := draw_frame_eq_drawBody e1 (resize r newSc) s1 f1 hget1 hf1w hf1p
  have o1fr : (draw_frame e1 (resize r newSc) s1).freed_framebuffers =
      f1.delete_queue_framebuffers := by
    rw [heq1, drawBody_freed_framebuffers]
  have o1iv : (draw_frame e1 (resize r newSc) s1).freed_image_views =
      f1.delete_queue_image_views := by
    rw [heq1, drawBody_freed_image_views]
  have o1idx : (draw_frame e1 (resize r newSc) s1).renderer.current_frame_index =
      (r.current_frame_index + 1) % 3 := by
    rw [draw_frame_current_frame_index, hidx1]
  have o1len : (draw_frame e1 (resize r newSc) s1).renderer.frames.length = 3 := by
    rw [draw_frame_frames_length, hr1len]
  have o1i : (draw_frame e1 (resize r newSc) s1).renderer.frames[r.current_frame_index]? =
      (resize r newSc).frames[r.current_frame_index]? :=
    draw_frame_get_ne e1 (resize r newSc) s1 r.current_frame_index
      (by rw [hidx1]; exact Ne.symm hi1)
  have o1f2 : (draw_frame e1 (resize r newSc) s1).renderer.frames[
      (r.current_frame_index + 2) % 3]? = some f2 := by
    rw [draw_frame_get_ne e1 (resize r newSc) s1 _ (by rw [hidx1]; exact hi12)]
    exact hr12
  -- The second draw runs on slot (i+2) % 3.
  have hidx2 : ((draw_frame e1 (resize r newSc) s1).renderer.current_frame_index + 1) %
      (draw_frame e1 (resize r newSc) s1).renderer.frames.length =
      (r.current_frame_index + 2) % 3 := by
    rw [o1idx, o1len]; omega
  have hget2 : (draw_frame e1 (resize r newSc) s1).renderer.frames[
      ((draw_frame e1 (resize r newSc) s1).renderer.current_frame_index + 1) %
        (draw_frame e1 (resize r newSc) s1).renderer.frames.length]? = some f2 := by
    rw [hidx2]; exact o1f2
  have heq2 := draw_frame_eq_drawBody e2 (draw_frame e1 (resize r newSc) s1).renderer s2
    f2 hget2 hf2w hf2p
  have o2fr : (draw_frame e2 (draw_frame e1 (resize r newSc) s1).renderer s2).freed_framebuffers =
      f2.delete_queue_framebuffers := by
    rw [heq2, drawBody_freed_framebuffers]
  have o2iv : (draw_frame e2 (draw_frame e1 (resize r newSc) s1).renderer s2).freed_image_views =
      f2.delete_queue_image_views := by
    rw [heq2, drawBody_freed_image_views]
  have o2idx : (draw_frame e2 (draw_frame e1 (resize r newSc) s1).renderer
      s2).renderer.current_frame_index = (r.current_frame_index + 2) % 3 := by
    rw [draw_frame_current_frame_index, hidx2]
  have o2len : (draw_frame e2 (draw_frame e1 (resize r newSc) s1).renderer
      s2).renderer.frames.length = 3 := by
    rw [draw_frame_frames_length, o1len]
  have o2i : (draw_frame e2 (draw_frame e1 (resize r newSc) s1).renderer
      s2).renderer.frames[r.current_frame_index]? =
      (resize r newSc).frames[r.current_frame_index]? := by
    rw [draw_frame_get_ne e2 (draw_frame e1 (resize r newSc) s1).renderer s2
      r.current_frame_index (by rw [hidx2]; exact Ne.symm hi2)]
    exact o1i
  -- The third draw runs on slot i again.
  have hidx3 : ((draw_frame e2 (draw_frame e1 (resize r newSc) s1).renderer
      s2).renderer.current_frame_index + 1) %
      (draw_frame e2 (draw_frame e1 (resize r newSc) s1).renderer
        s2).renderer.frames.length = r.current_frame_index := by
    rw [o2idx, o2len]; omega
  have hget3 : (draw_frame e2 (draw_frame e1 (resize r newSc) s1).renderer
      s2).renderer.frames[((draw_frame e2 (draw_frame e1 (resize r newSc) s1).renderer
        s2).renderer.current_frame_index + 1) %
      (draw_frame e2 (draw_frame e1 (resize r newSc) s1).renderer
        s2).renderer.frames.length]? =
      some { fi with
        delete_queue_framebuffers :=
          fi.delete_queue_framebuffers ++ r.swapchain.framebuffers,
        delete_queue_image_views :=
          fi.delete_queue_image_views ++ r.swapchain.image_views } := by
    rw [hidx3, o2i]; exact hr1i
  have heq3 := draw_frame_eq_drawBody e3
    (draw_frame e2 (draw_frame e1 (resize r newSc) s1).renderer s2).renderer s3 _
    hget3 hfiw hfip
  refine ⟨hr1i, ⟨?_, o1fr, o1iv⟩, ⟨?_, o2fr, o2iv⟩, ?_, ?_, ?_, ?_, ?_, ?_, ?_⟩
  · rw [heq1, drawBody_waited]
  · rw [heq2, drawBody_waited]
  · intro a ha
    rw [o1fr, o2fr]
    exact ⟨hd1f a ha, hd2f a ha⟩
  · intro a ha
    rw [o1iv, o2iv]
    exact ⟨hd1v a ha, hd2v a ha⟩
  · rw [draw_frame_current_frame_index, hidx3]
  · rw [heq3, drawBody_waited]
  · rw [heq3, drawBody_freed_framebuffers]
  · rw [heq3, drawBody_freed_image_views]
  · intro hnr
    rw [heq3] at hnr ⊢
    rw [show r.current_frame_index =
        ((draw_frame e2 (draw_frame e1 (resize r newSc) s1).renderer
          s2).renderer.current_frame_index + 1) %
        (draw_frame e2 (draw_frame e1 (resize r newSc) s1).renderer
          s2).renderer.frames.length from hidx3.symm]
    refine drawBody_active_queues e3 _ _ _ s3 ?_ hnr
    show ((draw_frame e2 (draw_frame e1 (resize r newSc) s1).renderer
        s2).renderer.current_frame_index + 1) %
      (draw_frame e2 (draw_frame e1 (resize r newSc) s1).renderer
        s2).renderer.frames.length <
      (draw_frame e2 (draw_frame e1 (resize r newSc) s1).renderer
        s2).renderer.frames.length
    rw [o2len]
    omega

/-- C1 witness: the deferred-deletion theorem applied to a concrete 3-slot
renderer — after a resize at slot 0 and three successful draws, the third
draw is back on slot 0. -/
theorem deferred_deletion_spec_witness :
    (rSmall.frames.length = 3) ∧
    (rSmall.frames[rSmall.current_frame_index]? = some slotEmpty) ∧
    ((draw_frame envOk (draw_frame envOk (draw_frame envOk (resize rSmall scNext)
        sceneEmpty).renderer sceneEmpty).renderer
        sceneEmpty).renderer.current_frame_index = rSmall.current_frame_index) :=
  ⟨rfl, rfl,
   (deferred_deletion_spec rSmall scNext envOk envOk envOk sceneEmpty sceneEmpty
      sceneEmpty slotEmpty slotEmpty slotEmpty rfl (by decide) rfl rfl rfl
      (by decide) (by decide) (by decide) (by decide) (by decide) (by decide)
      (by decide) (by decide) (by decide) (by decide) _ _ _ _ rfl rfl rfl
      rfl).2.2.2.2.2.1⟩

end Kast
